import Mathlib

/-!
Shallow embedding of `src/streamlit_app.py` (class `StableDiffusionLoader`)
and proofs about its behaviour.

The external collaborators (torch device detection, the diffusers pipeline,
the filesystem) are modelled as explicit parameters: a boolean
`cudaAvailable`, an oracle structure `Collab` for the model collaborator,
and a `writable` predicate for the filesystem.  The method
`generate_image_from_prompt` is embedded as a pure function that returns
the post-call object state, the Python-level outcome (image or raised
exception) and the trace of external events it performed, in order.
-/

/-- Dynamically typed Python values, as far as this program inspects them:
the constructor asserts `isinstance(x, str)`, so we distinguish strings
from non-string values (an integer and `None` stand for the latter). -/
inductive PyVal where
  | str (s : String)
  | intV (n : Int)
  | noneV
deriving DecidableEq, Repr

/-- `isinstance(v, str)` in Python. -/
def PyVal.isStr : PyVal → Bool
  | .str _ => true
  | _ => false

/-- `str(v)` / f-string rendering of a Python value. -/
def PyVal.format : PyVal → String
  | .str s => s
  | .intV n => toString n
  | .noneV => "None"

/-- `len(v)` in Python: defined on strings, raises `TypeError` otherwise
(modelled as `none`). -/
def PyVal.pyLen : PyVal → Option Nat
  | .str s => some s.length
  | _ => none

/-- Exceptions the embedded code can raise.  `memoryError` is the
`MemoryError('GPU need for inference')` of the device check (the spec's
`ResourceUnavailable`); `assertionError` is a failed `assert` (the spec's
`InvalidArgument`); `modelError` is an exception propagated from the
external model collaborator (the spec's `ModelInvocationError`);
`ioError` is a failed `image.save`; `indexError` is a failed `[0]`
indexing. -/
inductive PyError where
  | memoryError (msg : String)
  | assertionError (msg : String)
  | modelError (msg : String)
  | ioError (msg : String)
  | indexError (msg : String)
deriving DecidableEq, Repr

/-- An image, abstracted to its byte content (what `image.save` persists). -/
abbrev Image := List Nat

/-- The object state of a `StableDiffusionLoader` instance: the three
attributes assigned in `__init__`. -/
structure StableDiffusionLoader where
  prompt : PyVal
  pretrain_pipe : PyVal
  device : String
deriving DecidableEq, Repr

/-- `"cuda" if torch.cuda.is_available() else "cpu"` (line 40). -/
def cudaDevice (cudaAvailable : Bool) : String :=
  if cudaAvailable then "cuda" else "cpu"

/-- The default value of the `pretrain_pipe` parameter of `__init__`. -/
def default_pretrain_pipe : PyVal := PyVal.str "CompVis/stable-diffusion-v1-4"

/-- `StableDiffusionLoader.__init__` (lines 25-47): assign the attributes,
raise `MemoryError` when the resolved device is `cpu`, then assert that
prompt and pipeline identifier are strings. -/
def StableDiffusionLoader.init (cudaAvailable : Bool) (prompt pretrain_pipe : PyVal) :
    Except PyError StableDiffusionLoader :=
  let device := cudaDevice cudaAvailable
  if device = "cpu" then
    .error (.memoryError "GPU need for inference")
  else if prompt.isStr then
    if pretrain_pipe.isStr then
      .ok { prompt := prompt, pretrain_pipe := pretrain_pipe, device := device }
    else
      .error (.assertionError "Please use value such as `CompVis/stable-diffusion-v1-4` for pretrained pipeline")
  else
    .error (.assertionError "Please enter a string into the prompt field")

/-- `StableDiffusionLoader.__str__` (lines 77-78). -/
def StableDiffusionLoader.str (self : StableDiffusionLoader) : String :=
  "[INFO] Generating image for prompt: " ++ self.prompt.format

/-- `StableDiffusionLoader.__len__` (lines 80-81): `len(self.prompt)`. -/
def StableDiffusionLoader.len (self : StableDiffusionLoader) : Option Nat :=
  self.prompt.pyLen

/-- One external-world action performed by `generate_image_from_prompt`,
in the order the method performs them: call
`StableDiffusionPipeline.from_pretrained(model_id, revision, torch_dtype,
use_auth_token)`, bind the pipeline to a device (`pipe.to(device)`),
invoke the pipeline on the prompt inside `autocast(device)`, persist an
image (`image.save(loc)`, recorded only when the write succeeds), or print
the verbose note. -/
inductive Event where
  | resolvePipeline (model_id : PyVal) (revision dtype : String) (use_auth_token : Bool)
  | bindDevice (device : String)
  | invoke (prompt : PyVal) (autocastDevice : String)
  | saveImage (img : Image) (loc : String)
  | printNote (msg : String)
deriving DecidableEq, Repr

/-- Whether an event is the optional verbose progress note. -/
def Event.isNote : Event → Bool
  | .printNote _ => true
  | _ => false

/-- The external model collaborator, as an oracle: `resolve` is the outcome
of `StableDiffusionPipeline.from_pretrained` (called with the stored
pipeline identifier, revision `fp16`, dtype `float16` and the token flag);
`infer` is the outcome of calling the resolved pipeline on the stored
prompt — either a raised exception (its message) or the returned batches
of images. -/
structure Collab where
  resolve : PyVal → String → String → Bool → Except String Unit
  infer : PyVal → Except String (List (List Image))

/-- The successful filesystem writes recorded in a trace: pairs of
location and persisted byte content. -/
def writesOf (tr : List Event) : List (String × Image) :=
  tr.filterMap fun e =>
    match e with
    | .saveImage img loc => some (loc, img)
    | _ => none

/-- The default value of the `save_location` parameter of
`generate_image_from_prompt` (line 49). -/
def default_save_location : String := "prompt.jpg"

/-- `StableDiffusionLoader.generate_image_from_prompt` (lines 49-75),
embedded over the collaborator oracle and a `writable` filesystem
predicate.  Returns the post-call object state (the method assigns no
attribute, so each branch returns `self`), the outcome (the returned
image, or the exception that propagates), and the ordered trace of
external events: resolve the pipeline with reduced-precision settings,
bind it to the stored device, invoke it on the stored prompt under
`autocast`, take `[0][0]` of the result, save to `save_location`, then
optionally print the verbose note and return the image. -/
def StableDiffusionLoader.generate_image_from_prompt (self : StableDiffusionLoader)
    (collab : Collab) (writable : String → Bool)
    (save_location : String) (use_token verbose : Bool) :
    StableDiffusionLoader × Except PyError Image × List Event :=
  let ev0 := [Event.resolvePipeline self.pretrain_pipe "fp16" "float16" use_token]
  match collab.resolve self.pretrain_pipe "fp16" "float16" use_token with
  | .error msg => (self, .error (.modelError msg), ev0)
  | .ok _ =>
    let ev2 := ev0 ++ [Event.bindDevice self.device, Event.invoke self.prompt self.device]
    match collab.infer self.prompt with
    | .error msg => (self, .error (.modelError msg), ev2)
    | .ok batches =>
      match batches with
      | [] => (self, .error (.indexError "list index out of range"), ev2)
      | first :: _ =>
        match first with
        | [] => (self, .error (.indexError "list index out of range"), ev2)
        | image :: _ =>
          if writable save_location then
            let ev3 := ev2 ++ [Event.saveImage image save_location]
            let ev4 := if verbose
              then ev3 ++ [Event.printNote ("[INFO] saving image to " ++ save_location)]
              else ev3
            (self, .ok image, ev4)
          else
            (self, .error (.ioError ("could not write " ++ save_location)), ev2)

/-- A concrete successfully-constructed loader, for witnesses. -/
def sampleLoader : StableDiffusionLoader :=
  { prompt := PyVal.str "a red circle", pretrain_pipe := default_pretrain_pipe,
    device := "cuda" }

/-- A stub collaborator whose pipeline resolution raises. -/
def failingResolveCollab : Collab :=
  { resolve := fun _ _ _ _ => Except.error "resolution failed",
    infer := fun _ => Except.ok [[[1, 2, 3]]] }

/-- A stub collaborator that resolves and returns one fixed image. -/
def fixedImageCollab : Collab :=
  { resolve := fun _ _ _ _ => Except.ok (),
    infer := fun _ => Except.ok [[[7, 7, 7]]] }

/-- Claim C1: in an environment with no accelerated device, construction
fails with the `ResourceUnavailable` error (`MemoryError('GPU need for
inference')`) for every prompt and model identifier, valid or not: the
device check decides the outcome before any prompt validation. -/
theorem C1_no_device_fails (prompt pretrain_pipe : PyVal) :
    StableDiffusionLoader.init false prompt pretrain_pipe =
      Except.error (PyError.memoryError "GPU need for inference") := by
  simp [StableDiffusionLoader.init, cudaDevice]

/-- Claim C2 counterexample: constructing with the empty prompt string (and
the default model identifier) under an available accelerated device does
NOT fail: the empty string passes the `isinstance(_, str)` assertion, so
construction succeeds, contradicting the claim that an empty prompt is
rejected with `InvalidArgument`. -/
theorem C2_empty_prompt_accepted :
    StableDiffusionLoader.init true (PyVal.str "") default_pretrain_pipe =
      Except.ok { prompt := PyVal.str "", pretrain_pipe := default_pretrain_pipe,
                  device := "cuda" } := by
  simp [StableDiffusionLoader.init, cudaDevice, default_pretrain_pipe, PyVal.isStr]

/-- Claim C2 (amended): with an accelerated device available, a wrong-typed
(non-string) prompt or model identifier fails with an `InvalidArgument`
error (`AssertionError`) at construction time; any string values, empty
ones included, pass validation and construction succeeds. -/
theorem C2_type_validation (p m : PyVal) :
    (p.isStr = false →
      StableDiffusionLoader.init true p m =
        Except.error (PyError.assertionError "Please enter a string into the prompt field")) ∧
    (p.isStr = true → m.isStr = false →
      StableDiffusionLoader.init true p m =
        Except.error (PyError.assertionError
          "Please use value such as `CompVis/stable-diffusion-v1-4` for pretrained pipeline")) ∧
    (p.isStr = true → m.isStr = true →
      StableDiffusionLoader.init true p m =
        Except.ok { prompt := p, pretrain_pipe := m, device := "cuda" }) := by
  refine ⟨fun hp => ?_, fun hp hm => ?_, fun hp hm => ?_⟩
  · simp [StableDiffusionLoader.init, cudaDevice, hp]
  · simp [StableDiffusionLoader.init, cudaDevice, hp, hm]
  · simp [StableDiffusionLoader.init, cudaDevice, hp, hm]

/-- Claim C2 witness: evaluating the amended claim at an integer prompt. -/
theorem C2_type_validation_witness :
    StableDiffusionLoader.init true (PyVal.intV 3) default_pretrain_pipe =
      Except.error (PyError.assertionError "Please enter a string into the prompt field") :=
  (C2_type_validation (PyVal.intV 3) default_pretrain_pipe).1 (by decide)

/-- Claim C4: for every non-empty prompt string P and non-empty model
identifier string M, construction with an accelerated device available
succeeds and stores P (and M) unchanged, with device `cuda`. -/
theorem C4_nonempty_prompt_succeeds (P M : String) (_hP : P ≠ "") (_hM : M ≠ "") :
    StableDiffusionLoader.init true (PyVal.str P) (PyVal.str M) =
      Except.ok { prompt := PyVal.str P, pretrain_pipe := PyVal.str M,
                  device := "cuda" } := by
  simp [StableDiffusionLoader.init, cudaDevice, PyVal.isStr]

/-- Claim C4 witness: a concrete non-empty prompt and model identifier. -/
theorem C4_nonempty_prompt_succeeds_witness :
    StableDiffusionLoader.init true (PyVal.str "a red circle")
        (PyVal.str "CompVis/stable-diffusion-v1-4") =
      Except.ok { prompt := PyVal.str "a red circle",
                  pretrain_pipe := PyVal.str "CompVis/stable-diffusion-v1-4",
                  device := "cuda" } :=
  C4_nonempty_prompt_succeeds "a red circle" "CompVis/stable-diffusion-v1-4"
    (by decide) (by decide)

/-- Claim C9: for every successfully constructed loader, `__len__` returns
the length of the prompt string it was constructed with. -/
theorem C9_len_eq_prompt_length (c : Bool) (P M : String) (l : StableDiffusionLoader)
    (h : StableDiffusionLoader.init c (PyVal.str P) (PyVal.str M) = Except.ok l) :
    l.len = some P.length := by
  unfold StableDiffusionLoader.init at h
  simp [PyVal.isStr] at h
  split at h
  · exact absurd h (by simp)
  · simp only [Except.ok.injEq] at h
    subst h
    rfl

/-- Claim C9 witness: evaluating at a concrete constructed loader. -/
theorem C9_len_eq_prompt_length_witness :
    ({ prompt := PyVal.str "abc", pretrain_pipe := PyVal.str "m",
       device := "cuda" } : StableDiffusionLoader).len = some ("abc".length) :=
  C9_len_eq_prompt_length true "abc" "m" _ (by rfl)

/-- Claim C10: for every successfully constructed loader with prompt P, its
`__str__` rendering is exactly `"[INFO] Generating image for prompt: "`
followed by P. -/
theorem C10_str_rendering (c : Bool) (P M : String) (l : StableDiffusionLoader)
    (h : StableDiffusionLoader.init c (PyVal.str P) (PyVal.str M) = Except.ok l) :
    l.str = "[INFO] Generating image for prompt: " ++ P := by
  unfold StableDiffusionLoader.init at h
  simp [PyVal.isStr] at h
  split at h
  · exact absurd h (by simp)
  · simp only [Except.ok.injEq] at h
    subst h
    rfl

/-- Claim C10 witness: evaluating at a concrete constructed loader. -/
theorem C10_str_rendering_witness :
    ({ prompt := PyVal.str "a cat", pretrain_pipe := PyVal.str "m",
       device := "cuda" } : StableDiffusionLoader).str =
      "[INFO] Generating image for prompt: " ++ "a cat" :=
  C10_str_rendering true "a cat" "m" _ (by rfl)

/-- Claim C3: if the external model collaborator raises during pipeline
resolution or during invocation, `generate_image_from_prompt` surfaces the
failure to the caller as a `ModelInvocationError` carrying the
collaborator's message unchanged (not wrapped, not retried), and performs
no filesystem write of an image. -/
theorem C3_model_failure_propagates (self : StableDiffusionLoader) (collab : Collab)
    (writable : String → Bool) (loc : String) (tok vb : Bool) (m : String)
    (h : collab.resolve self.pretrain_pipe "fp16" "float16" tok = Except.error m ∨
         (collab.resolve self.pretrain_pipe "fp16" "float16" tok = Except.ok () ∧
          collab.infer self.prompt = Except.error m)) :
    (self.generate_image_from_prompt collab writable loc tok vb).2.1 =
        Except.error (PyError.modelError m) ∧
    writesOf (self.generate_image_from_prompt collab writable loc tok vb).2.2 = [] := by
  rcases h with h | ⟨h1, h2⟩
  · simp [StableDiffusionLoader.generate_image_from_prompt, h, writesOf]
  · simp [StableDiffusionLoader.generate_image_from_prompt, h1, h2, writesOf]

/-- Claim C3 witness: the failing-resolution stub at concrete inputs. -/
theorem C3_model_failure_propagates_witness :
    (sampleLoader.generate_image_from_prompt failingResolveCollab (fun _ => true)
        "prompt.jpg" false false).2.1 =
        Except.error (PyError.modelError "resolution failed") ∧
    writesOf (sampleLoader.generate_image_from_prompt failingResolveCollab (fun _ => true)
        "prompt.jpg" false false).2.2 = [] :=
  C3_model_failure_propagates sampleLoader failingResolveCollab (fun _ => true)
    "prompt.jpg" false false "resolution failed" (Or.inl rfl)

/-- Claim C5: on a successful call, the steps happen in order: resolve the
pretrained pipeline via the collaborator with reduced-precision weights
(revision `fp16`, dtype `float16`) and the token flag, bind it to the
device selected at construction, invoke it on the stored prompt inside the
device's `autocast` context, persist the resulting image to
`save_location`, optionally emit the verbose note, and return the image;
the `save_location` parameter defaults to `prompt.jpg`. -/
theorem C5_step_order (self : StableDiffusionLoader) (collab : Collab)
    (writable : String → Bool) (loc : String) (tok vb : Bool)
    (img : Image) (rest : List Image) (more : List (List Image))
    (hres : collab.resolve self.pretrain_pipe "fp16" "float16" tok = Except.ok ())
    (hinf : collab.infer self.prompt = Except.ok ((img :: rest) :: more))
    (hw : writable loc = true) :
    self.generate_image_from_prompt collab writable loc tok vb =
      (self, Except.ok img,
        [Event.resolvePipeline self.pretrain_pipe "fp16" "float16" tok,
         Event.bindDevice self.device,
         Event.invoke self.prompt self.device,
         Event.saveImage img loc] ++
        (if vb then [Event.printNote ("[INFO] saving image to " ++ loc)] else [])) ∧
    default_save_location = "prompt.jpg" := by
  refine ⟨?_, rfl⟩
  cases vb <;>
    simp [StableDiffusionLoader.generate_image_from_prompt, hres, hinf, hw]

/-- Claim C5 witness: the fixed-image stub at concrete inputs, verbose. -/
theorem C5_step_order_witness :
    sampleLoader.generate_image_from_prompt fixedImageCollab (fun _ => true)
        "out.jpg" true true =
      (sampleLoader, Except.ok [7, 7, 7],
        [Event.resolvePipeline sampleLoader.pretrain_pipe "fp16" "float16" true,
         Event.bindDevice sampleLoader.device,
         Event.invoke sampleLoader.prompt sampleLoader.device,
         Event.saveImage [7, 7, 7] "out.jpg"] ++
        (if true then [Event.printNote ("[INFO] saving image to " ++ "out.jpg")] else [])) ∧
    default_save_location = "prompt.jpg" :=
  C5_step_order sampleLoader fixedImageCollab (fun _ => true) "out.jpg" true true
    [7, 7, 7] [] [] rfl rfl rfl

/-- Claim C6: the method returns exactly the first image of the first
result batch returned by the pipeline, and the only filesystem write the
call performs persists, at the writable save location, that same byte
content — so with a fixed-image stub the persisted file is byte-identical
to the stub's output. -/
theorem C6_first_image_persisted (self : StableDiffusionLoader) (collab : Collab)
    (writable : String → Bool) (loc : String) (tok vb : Bool)
    (img : Image) (rest : List Image) (more : List (List Image))
    (hres : collab.resolve self.pretrain_pipe "fp16" "float16" tok = Except.ok ())
    (hinf : collab.infer self.prompt = Except.ok ((img :: rest) :: more))
    (hw : writable loc = true) :
    (self.generate_image_from_prompt collab writable loc tok vb).2.1 = Except.ok img ∧
    writesOf (self.generate_image_from_prompt collab writable loc tok vb).2.2 =
      [(loc, img)] := by
  cases vb <;>
    simp [StableDiffusionLoader.generate_image_from_prompt, hres, hinf, hw, writesOf]

/-- Claim C6 witness: the fixed-image stub at concrete inputs. -/
theorem C6_first_image_persisted_witness :
    (sampleLoader.generate_image_from_prompt fixedImageCollab (fun _ => true)
        "prompt.jpg" false false).2.1 = Except.ok [7, 7, 7] ∧
    writesOf (sampleLoader.generate_image_from_prompt fixedImageCollab (fun _ => true)
        "prompt.jpg" false false).2.2 = [("prompt.jpg", [7, 7, 7])] :=
  C6_first_image_persisted sampleLoader fixedImageCollab (fun _ => true)
    "prompt.jpg" false false [7, 7, 7] [] [] rfl rfl rfl

/-- Claim C7: with the same loader, collaborator, filesystem, save
location and token flag, a call with `verbose := true` and one with
`verbose := false` return the same outcome and the same post-state, and
their traces agree once the progress notes are removed: the verbose flag
only adds a human-readable note and never affects the returned value. -/
theorem C7_verbose_only_adds_note (self : StableDiffusionLoader) (collab : Collab)
    (writable : String → Bool) (loc : String) (tok : Bool) :
    (self.generate_image_from_prompt collab writable loc tok true).2.1 =
      (self.generate_image_from_prompt collab writable loc tok false).2.1 ∧
    (self.generate_image_from_prompt collab writable loc tok true).1 =
      (self.generate_image_from_prompt collab writable loc tok false).1 ∧
    ((self.generate_image_from_prompt collab writable loc tok true).2.2.filter
        fun e => !e.isNote) =
      (self.generate_image_from_prompt collab writable loc tok false).2.2 := by
  unfold StableDiffusionLoader.generate_image_from_prompt
  cases collab.resolve self.pretrain_pipe "fp16" "float16" tok with
  | error m => simp [Event.isNote]
  | ok u =>
    cases collab.infer self.prompt with
    | error m => simp [Event.isNote]
    | ok batches =>
      cases batches with
      | nil => simp [Event.isNote]
      | cons first more =>
        cases first with
        | nil => simp [Event.isNote]
        | cons img r =>
          by_cases hw : writable loc
          · simp [hw, Event.isNote]
          · simp [hw, Event.isNote]

/-- Claim C8: `generate_image_from_prompt` never mutates the instance:
whatever the collaborator and filesystem do, the post-call object state
equals the pre-call one, so prompt, model identifier and the device
resolved once at construction are unchanged. -/
theorem C8_no_self_mutation (self : StableDiffusionLoader) (collab : Collab)
    (writable : String → Bool) (loc : String) (tok vb : Bool) :
    (self.generate_image_from_prompt collab writable loc tok vb).1 = self := by
  unfold StableDiffusionLoader.generate_image_from_prompt
  cases collab.resolve self.pretrain_pipe "fp16" "float16" tok with
  | error m => rfl
  | ok u =>
    cases collab.infer self.prompt with
    | error m => rfl
    | ok batches =>
      cases batches with
      | nil => rfl
      | cons first more =>
        cases first with
        | nil => rfl
        | cons img r =>
          by_cases hw : writable loc
          · simp [hw]
          · simp [hw]
